import Mathlib

set_option maxRecDepth 100000

/-!
Verification of the buildchain core: a shallow embedding of the signed-block
codec and verifier (src/block.rs), the base-32 digest encoding (src/store.rs,
src/sha384.rs, the base32 crate as used there), the content-addressed store
(src/store.rs), and the verify-on-fetch download path (src/download.rs).

Bytes are modelled as `Nat` (values < 256 where it matters, taken mod 256 at
every u8 operation), byte buffers as `List Nat`, fallible Rust functions as
`Except String` (carrying the source error string) and panics as `Option`
(`none` is a panic).  Cryptographic primitives (SHA-384, the NaCl attached
signature opening) are kept abstract as function parameters, with their
relevant contracts (a 48-byte output for SHA-384, recovering the signed
payload for a correctly signed buffer) as hypotheses.
-/

namespace Buildchain

/-! ## Base-32 (RFC 4648, no padding) as implemented by the base32 crate -/

/-- The RFC 4648 alphabet used by `b32enc`/`b32dec` in src/store.rs. -/
def b32alphabet : List Char := "ABCDEFGHIJKLMNOPQRSTUVWXYZ234567".toList

/-- Look up one 5-bit value in the alphabet. -/
def alphaChar (i : Nat) : Char := b32alphabet.getD i 'A'

/-- Split a byte list into chunks of five (the encoder's `data.chunks(5)`);
the final chunk may be shorter. -/
def chunks5 : List Nat → List (List Nat)
  | b0 :: b1 :: b2 :: b3 :: b4 :: rest => [b0, b1, b2, b3, b4] :: chunks5 rest
  | [] => []
  | l => [l]

/-- Encode one (zero-padded) chunk of five bytes into eight alphabet
characters, following the bit operations of the base32 crate's `encode`. -/
def encChunk (c : List Nat) : List Char :=
  let b0 := c.getD 0 0 % 256
  let b1 := c.getD 1 0 % 256
  let b2 := c.getD 2 0 % 256
  let b3 := c.getD 3 0 % 256
  let b4 := c.getD 4 0 % 256
  [alphaChar (b0 / 8),
   alphaChar (b0 % 8 * 4 + b1 / 64),
   alphaChar (b1 / 2 % 32),
   alphaChar (b1 % 2 * 16 + b2 / 16),
   alphaChar (b2 % 16 * 2 + b3 / 128),
   alphaChar (b3 / 4 % 32),
   alphaChar (b3 % 4 * 8 + b4 / 32),
   alphaChar (b4 % 32)]

/-- `b32enc` from src/store.rs: unpadded RFC 4648 base-32 encoding; the
trailing `num_extra` characters of the last chunk are truncated instead of
being replaced by padding. -/
def b32enc (data : List Nat) : String :=
  let chars := ((chunks5 data).map encChunk).flatten
  if data.length % 5 = 0 then ⟨chars⟩
  else ⟨chars.take (chars.length - (8 - (data.length % 5 * 8 + 4) / 5))⟩

/-- The base32 crate's `RFC4648_INV_ALPHABET`, indexed by `char - '0'`;
`none` models the crate's `-1` entries / out-of-range, which abort decoding. -/
def invTable : List (Option Nat) :=
  [none, none, some 26, some 27, some 28, some 29, some 30, some 31, none, none,
   none, none, none, some 0, none, none, none,
   some 0, some 1, some 2, some 3, some 4, some 5, some 6, some 7, some 8,
   some 9, some 10, some 11, some 12, some 13, some 14, some 15, some 16,
   some 17, some 18, some 19, some 20, some 21, some 22, some 23, some 24,
   some 25]

/-- Decode one character to a 5-bit value: uppercase it (`to_ascii_uppercase`),
subtract `'0'` (wrapping: anything below `'0'` falls outside the table) and
index into the inverse alphabet. -/
def invAlphabet (c : Char) : Option Nat :=
  let u := c.toNat
  let up := if 97 ≤ u ∧ u ≤ 122 then u - 32 else u
  if up < 48 then none else invTable.getD (up - 48) none

/-- Split the input characters into chunks of eight (the decoder's
`data.chunks(8)`); the final chunk may be shorter. -/
def chunks8 : List Char → List (List Char)
  | c0 :: c1 :: c2 :: c3 :: c4 :: c5 :: c6 :: c7 :: rest =>
      [c0, c1, c2, c3, c4, c5, c6, c7] :: chunks8 rest
  | [] => []
  | l => [l]

/-- Reassemble five bytes from one (zero-padded) chunk of eight 5-bit values,
following the bit operations of the base32 crate's `decode` (u8 shifts wrap
mod 256). -/
def decChunkBytes (vals : List Nat) : List Nat :=
  let b0 := vals.getD 0 0
  let b1 := vals.getD 1 0
  let b2 := vals.getD 2 0
  let b3 := vals.getD 3 0
  let b4 := vals.getD 4 0
  let b5 := vals.getD 5 0
  let b6 := vals.getD 6 0
  let b7 := vals.getD 7 0
  [b0 * 8 + b1 / 4,
   b1 % 4 * 64 + b2 * 2 + b3 / 16,
   b3 % 16 * 16 + b4 / 2,
   b4 % 2 * 128 + b5 * 4 + b6 / 8,
   b6 % 8 * 32 + b7]

/-- Count the trailing `'='` padding characters of the input. -/
def trailingEqCount (l : List Char) : Nat :=
  (l.reverse.takeWhile (fun c => c = '=')).length

/-- `b32dec` from src/store.rs, i.e. the base32 crate's `decode`: reject
non-ASCII input, strip up to six trailing padding characters from the length
count, decode every 8-character chunk (aborting on any character outside the
alphabet) and truncate the output to `unpadded_length * 5 / 8` bytes.
Note that no particular decoded length is required. -/
def b32dec (txt : String) : Option (List Nat) :=
  let data := txt.toList
  if data.any (fun c => 128 ≤ c.toNat) then none
  else
    let pad := min 6 (trailingEqCount data)
    let outputLength := (data.length - pad) * 5 / 8
    ((chunks8 data).mapM
        (fun (ch : List Char) => (ch.mapM invAlphabet).map decChunkBytes)).map
      (fun bss => bss.flatten.take outputLength)

/-! ## Sha384 textual conversions (src/sha384.rs) -/

/-- Model of `copy_from_slice` into a `[u8; 48]`: `none` is the length-mismatch
panic. -/
def copy48 (l : List Nat) : Option (List Nat) :=
  if l.length = 48 then some l else none

/-- `from_base32` in src/sha384.rs, the serde deserializer for `Sha384`:
decode the string with `b32dec` and fail with the custom error on `None`.
The decoded length is not inspected. -/
def sha384FromBase32 (s : String) : Except String (List Nat) :=
  match b32dec s with
  | some v => Except.ok v
  | none => Except.error "b32dec failed"

/-- `Sha384::to_base32` in src/sha384.rs: copy the inner vector into a
`[u8; 48]` (panicking — `none` — when the length differs) and base-32 encode
it. -/
def sha384ToBase32 (v : List Nat) : Option String :=
  (copy48 v).map b32enc

/-! ## Signed-block codec and verifier (src/block.rs, src/download.rs) -/

/-- The decoded `Block` struct of src/block.rs. -/
structure Block where
  signature : String
  public_key : String
  previous_signature : String
  counter : Nat
  timestamp : Nat
  digest : String

/-- Read a little-endian unsigned 64-bit integer from its byte list
(`u64::from_le` applied to the packed field). -/
def u64le (bytes : List Nat) : Nat :=
  bytes.foldr (fun b acc => b % 256 + 256 * acc) 0

/-- The embedded `public_key` field: bytes [64..96) of the packed block. -/
def fieldPublicKey (blk : List Nat) : List Nat := (blk.drop 64).take 32

/-- The decoding performed on the success path of `PackedBlock::verify`:
every binary field rendered in base-32, `counter` and `timestamp` read as
little-endian u64 from their fixed offsets, `digest` taken from the embedded
request (bytes [352..400)). -/
def decodedBlock (blk : List Nat) : Block :=
  { signature := b32enc (blk.take 64)
    public_key := b32enc (fieldPublicKey blk)
    previous_signature := b32enc ((blk.drop 96).take 64)
    counter := u64le ((blk.drop 160).take 8)
    timestamp := u64le ((blk.drop 168).take 8)
    digest := b32enc ((blk.drop 352).take 48) }

/-- `PackedBlock::verify` (src/block.rs lines 32–60).  `signOpen sm pk`
abstracts `sodalite::sign_attached_open` applied to the whole signed buffer
`sm` under public key `pk`: `some m` is the recovered payload (already
truncated to the returned count), `none` a cryptographic failure. -/
def verify (signOpen : List Nat → List Nat → Option (List Nat))
    (blk : List Nat) (key : List Nat) : Except String Block :=
  if fieldPublicKey blk ≠ key then Except.error "public key mismatch"
  else
    match signOpen blk (fieldPublicKey blk) with
    | none => Except.error "signature invalid"
    | some m =>
        if m ≠ blk.drop 64 then Except.error "message data invalid"
        else Except.ok (decodedBlock blk)

/-- The decode step of `Downloader::tail` (src/download.rs line 84):
`plain::from_bytes::<PackedBlock>` fails with `TooShort` — surfaced as
"response too small" — exactly when fewer than 400 bytes are present;
otherwise it reinterprets the first 400 bytes as the block. -/
def decodeTailBlock (data : List Nat) : Except String (List Nat) :=
  if data.length < 400 then Except.error "response too small"
  else Except.ok (data.take 400)

/-- Discriminate `Except` results. -/
def exceptOk {ε : Type} {α : Type} : Except ε α → Bool
  | Except.ok _ => true
  | Except.error _ => false

/-! ## Content-addressed store (src/store.rs)

The store state records, for each directory of the on-disk layout, the map
from file name to content: `objects` and `blocks` are keyed by the base-32
name under `object/` resp. `block/`, `tails` by project and branch under
`tail/`, and `manifest` is the target of the `manifest.json` symbolic link.
A staged write (`_write_content` to a fresh `tmp/<random>` path followed by
`rename` into the canonical path) is modelled as a direct update of the
destination: `rename` atomically replaces any existing file at the
destination, so repeated content-addressed writes succeed.  `symlink`, by
contrast, fails with `EEXIST` when the link path already exists, which the
model surfaces as an `Except.error`. -/

/-- Join two path components (`PathBuf::join` for relative components). -/
def pathJoin (a b : String) : String := a ++ "/" ++ b

/-- `object_relpath` from src/store.rs. -/
def objectRelpath (key : List Nat) : String := pathJoin "object" (b32enc key)

/-- `block_relpath` from src/store.rs. -/
def blockRelpath (sig : List Nat) : String := pathJoin "block" (b32enc sig)

/-- `tail_to_block` from src/store.rs: the relative symlink target
`../../block/<base32 signature>`. -/
def tailToBlock (sig : List Nat) : String := pathJoin "../.." (blockRelpath sig)

/-- The mutable contents of a store's base directory. -/
structure StoreState where
  objects : String → Option (List Nat)
  blocks : String → Option (List Nat)
  tails : String → String → Option String
  manifest : Option String

/-- A store with no committed objects, blocks or references. -/
def emptyStore : StoreState :=
  { objects := fun _ => none
    blocks := fun _ => none
    tails := fun _ _ => none
    manifest := none }

/-- Commit a file into a directory: the effect of `rename` onto the canonical
path, replacing whatever was there. -/
def setFile (dir : String → Option (List Nat)) (name : String)
    (content : List Nat) : String → Option (List Nat) :=
  fun n => if n = name then some content else dir n

/-- Record a tail symlink for a project and branch. -/
def setTail (tails : String → String → Option String) (project branch : String)
    (target : String) : String → String → Option String :=
  fun p b => if p = project ∧ b = branch then some target else tails p b

/-- `Store::write_object` (src/store.rs lines 156–167): hash the content with
SHA-384 (abstracted as `hash`; `copy48` models the `copy_from_slice` into the
48-byte key, `none` being its panic), stage the content and rename it into
`object/<base32 key>`, replacing an already-present object of the same
digest. -/
def writeObject (hash : List Nat → List Nat) (s : StoreState)
    (obj : List Nat) : Option (List Nat × StoreState) :=
  (copy48 (hash obj)).map (fun key =>
    (key, { s with objects := setFile s.objects (b32enc key) obj }))

/-- `Store::open_object` (src/store.rs lines 177–179): open the file at
`object/<base32 key>`; `none` is the `NotFound` error. -/
def openObject (s : StoreState) (key : List Nat) : Option (List Nat) :=
  s.objects (b32enc key)

/-- `Store::write_manifest` (src/store.rs lines 169–175): store the serialized
manifest as an object, then `symlink` `manifest.json` to `object/<base32 key>`
— a call that fails when the link already exists. -/
def writeManifest (hash : List Nat → List Nat) (s : StoreState)
    (obj : List Nat) : Option (Except String (List Nat × StoreState)) :=
  (writeObject hash s obj).map (fun p =>
    match p.2.manifest with
    | some _ => Except.error "File exists"
    | none => Except.ok (p.1, { p.2 with manifest := some (objectRelpath p.1) }))

/-- `Store::write_block` (src/store.rs lines 181–191): the signature is the
first 64 bytes of the 400-byte block; stage and rename into
`block/<base32 signature>`. -/
def writeBlock (s : StoreState) (block : List Nat) : List Nat × StoreState :=
  let sig := block.take 64
  (sig, { s with blocks := setFile s.blocks (b32enc sig) block })

/-- `Store::write_tail` (src/store.rs lines 193–208): write the block, create
the `tail` and `tail/<project>` directories on demand, then `symlink`
`tail/<project>/<branch>` to `../../block/<base32 signature>` — a call that
fails when the reference already exists. -/
def writeTail (s : StoreState) (project branch : String)
    (block : List Nat) : Except String (List Nat × StoreState) :=
  let pr := writeBlock s block
  match pr.2.tails project branch with
  | some _ => Except.error "File exists"
  | none =>
      Except.ok (pr.1,
        { pr.2 with tails := setTail pr.2.tails project branch (tailToBlock pr.1) })

/-! ## Verify-on-fetch object download (src/download.rs) -/

/-- `Downloader::object` (src/download.rs lines 68–78) applied to a fetched
response body: recompute the SHA-384 of the body (`hash` abstracts
`Sha384::new`, which hashes the whole body), render it in base-32 (the
`to_base32` step, whose panic is the outer `none`), and compare it to the
requested digest: a mismatch is the "sha384 mismatch" error, otherwise the
body is returned. -/
def downloaderObject (hash : List Nat → List Nat) (digest : String)
    (data : List Nat) : Option (Except String (List Nat)) :=
  (sha384ToBase32 (hash data)).map (fun s =>
    if s ≠ digest then Except.error "sha384 mismatch" else Except.ok data)

/-! ## Concrete inputs used by witnesses and counterexamples -/

/-- A concrete stand-in for the abstract SHA-384: constant 48-byte output. -/
def zeroHash : List Nat → List Nat := fun _ => List.replicate 48 0

/-- A concrete 400-byte block of zero bytes. -/
def blk400 : List Nat := List.replicate 400 0

/-- A concrete attached-signature opener that always fails. -/
def soNone : List Nat → List Nat → Option (List Nat) := fun _ _ => none

/-- A concrete attached-signature opener that faithfully recovers the payload
after the 64-byte signature. -/
def soId : List Nat → List Nat → Option (List Nat) := fun sm _ => some (sm.drop 64)

/-- A concrete attached-signature opener that succeeds with a wrong payload. -/
def soBad : List Nat → List Nat → Option (List Nat) := fun _ _ => some []

/-- A store whose `tail/proj/main` and `manifest.json` references exist. -/
def occupiedStore : StoreState :=
  { objects := fun _ => none
    blocks := fun _ => none
    tails := fun p b => if p = "proj" ∧ b = "main" then some "t" else none
    manifest := some "m" }

/-- Result of a second `write_tail` for the same project and branch, run after
a first one on an empty store. -/
def secondTail : Except String (List Nat × StoreState) :=
  match writeTail emptyStore "proj" "main" blk400 with
  | Except.ok pr => writeTail pr.2 "proj" "main" blk400
  | Except.error e => Except.error e

/-- Result of a second `write_manifest`, run after a first one on an empty
store. -/
def secondManifest : Option (Except String (List Nat × StoreState)) :=
  match writeManifest zeroHash emptyStore [1] with
  | some (Except.ok pr) => writeManifest zeroHash pr.2 [1]
  | some (Except.error e) => some (Except.error e)
  | none => none

/-! ## Theorems -/

/-- Claim C1: `PackedBlock::verify` performs its checks in order and returns
the corresponding error on first failure: an embedded public key differing
from the expected key yields "public key mismatch" regardless of any
cryptographic outcome; with matching keys, a failing attached-signature open
yields "signature invalid"; with a successful open whose recovered payload
differs from bytes [64..400) of the buffer, "message data invalid";
verification succeeds only when all three checks pass. -/
theorem c1_verify_check_order (signOpen : List Nat → List Nat → Option (List Nat))
    (blk key : List Nat) :
    ((blk.drop 64).take 32 ≠ key →
      verify signOpen blk key = Except.error "public key mismatch")
    ∧ ((blk.drop 64).take 32 = key → signOpen blk key = none →
      verify signOpen blk key = Except.error "signature invalid")
    ∧ (∀ m, (blk.drop 64).take 32 = key → signOpen blk key = some m →
      m ≠ blk.drop 64 →
      verify signOpen blk key = Except.error "message data invalid")
    ∧ (∀ m, (blk.drop 64).take 32 = key → signOpen blk key = some m →
      m = blk.drop 64 →
      verify signOpen blk key = Except.ok (decodedBlock blk)) := by
  refine ⟨?_, ?_, ?_, ?_⟩
  · intro h
    simp [verify, fieldPublicKey, h]
  · intro h hso
    simp [verify, fieldPublicKey, h, hso]
  · intro m h hso hm
    simp [verify, fieldPublicKey, h, hso, hm]
  · intro m h hso hm
    subst hm
    simp [verify, fieldPublicKey, h, hso]

/-- Witness for C1: each branch of the verification order at concrete
inputs — a wrong key fails with the wrong-signer error even though the
opener would also have failed, and the remaining branches fire as stated. -/
theorem c1_verify_check_order_witness :
    verify soNone blk400 (List.replicate 32 1) = Except.error "public key mismatch"
    ∧ verify soNone blk400 (List.replicate 32 0) = Except.error "signature invalid"
    ∧ verify soBad blk400 (List.replicate 32 0) = Except.error "message data invalid"
    ∧ verify soId blk400 (List.replicate 32 0) = Except.ok (decodedBlock blk400) :=
  ⟨(c1_verify_check_order soNone blk400 (List.replicate 32 1)).1 (by decide),
   (c1_verify_check_order soNone blk400 (List.replicate 32 0)).2.1 (by decide) rfl,
   (c1_verify_check_order soBad blk400 (List.replicate 32 0)).2.2.1 [] (by decide) rfl
     (by decide),
   (c1_verify_check_order soId blk400 (List.replicate 32 0)).2.2.2 (blk400.drop 64)
     (by decide) rfl rfl⟩

/-- Claim C2 (amended): decoding the fetched body as a `PackedBlock`, as done
by `Downloader::tail`, fails with the "response too small" format error
exactly when the body is shorter than 400 bytes; for any body of at least 400
bytes decoding succeeds (viewing the first 400 bytes), so a length above 400
is not rejected. -/
theorem c2_decode_iff_too_short (data : List Nat) :
    (decodeTailBlock data = Except.error "response too small" ↔ data.length < 400)
    ∧ (exceptOk (decodeTailBlock data) = true ↔ 400 ≤ data.length) := by
  refine ⟨?_, ?_⟩ <;> by_cases h : data.length < 400 <;>
    simp [decodeTailBlock, h, exceptOk] <;> omega

/-- Counterexample to C2 as stated: a 401-byte body — length different from
400 — decodes successfully rather than failing with the format error. -/
theorem c2_counterexample :
    exceptOk (decodeTailBlock (List.replicate 401 0)) = true
    ∧ (List.replicate 401 0).length ≠ 400 := by decide

/-- Claim C3: for a well-formed 400-byte block whose embedded public key
matches the expected key and whose attached signature opens to exactly bytes
[64..400), `verify` succeeds and returns the decoded block whose fields equal
the wire fields field-for-field: base-32 of bytes [0..64), [64..96),
[96..160) and [352..400), and little-endian u64 readings of bytes [160..168)
and [168..176). -/
theorem c3_verify_success_fields (signOpen : List Nat → List Nat → Option (List Nat))
    (blk key : List Nat) (h400 : blk.length = 400)
    (hpk : (blk.drop 64).take 32 = key)
    (hsig : signOpen blk key = some (blk.drop 64)) :
    verify signOpen blk key = Except.ok
      { signature := b32enc (blk.take 64)
        public_key := b32enc ((blk.drop 64).take 32)
        previous_signature := b32enc ((blk.drop 96).take 64)
        counter := u64le ((blk.drop 160).take 8)
        timestamp := u64le ((blk.drop 168).take 8)
        digest := b32enc ((blk.drop 352).take 48) } := by
  simp [verify, fieldPublicKey, hpk, hsig, decodedBlock]

/-- Witness for C3: a concrete zero block, correctly "signed" under the
faithful opener, verifies to the expected decoded fields. -/
theorem c3_verify_success_fields_witness :
    verify soId blk400 (List.replicate 32 0) = Except.ok
      { signature := b32enc (blk400.take 64)
        public_key := b32enc ((blk400.drop 64).take 32)
        previous_signature := b32enc ((blk400.drop 96).take 64)
        counter := u64le ((blk400.drop 160).take 8)
        timestamp := u64le ((blk400.drop 168).take 8)
        digest := b32enc ((blk400.drop 352).take 48) } :=
  c3_verify_success_fields soId blk400 (List.replicate 32 0) (by decide) (by decide) rfl

/-- Claim C4: `Downloader::object` returns the fetched body exactly when the
base-32 SHA-384 digest recomputed over the body equals the requested digest
string; on a mismatch it fails with the "sha384 mismatch" integrity error and
the bytes are not returned. -/
theorem c4_object_digest_integrity (hash : List Nat → List Nat) (digest : String)
    (data : List Nat) (h : (hash data).length = 48) :
    (downloaderObject hash digest data = some (Except.ok data) ↔
      b32enc (hash data) = digest)
    ∧ (b32enc (hash data) ≠ digest →
      downloaderObject hash digest data = some (Except.error "sha384 mismatch")) := by
  have hs : sha384ToBase32 (hash data) = some (b32enc (hash data)) := by
    simp [sha384ToBase32, copy48, h]
  refine ⟨⟨?_, ?_⟩, ?_⟩
  · intro hres
    by_contra hne
    simp [downloaderObject, hs, hne] at hres
  · intro heq
    simp [downloaderObject, hs, heq]
  · intro hne
    simp [downloaderObject, hs, hne]

/-- Witness for C4: a response whose recomputed digest differs from the
requested digest string fails with the integrity error. -/
theorem c4_object_digest_integrity_witness :
    downloaderObject zeroHash "BAD" [] = some (Except.error "sha384 mismatch") :=
  (c4_object_digest_integrity zeroHash "BAD" [] (by decide)).2 (by decide)

/-- Claim C9 (amended): the digest parsing used when deserializing a `Sha384`
fails with the decode error precisely when the string is not valid base-32
for `b32dec`; the decoded byte length is never inspected, so a digest of any
decoded length — not only 48 — is accepted. -/
theorem c9_no_length_check (s : String) :
    (∀ v, b32dec s = some v → sha384FromBase32 s = Except.ok v)
    ∧ (b32dec s = none → sha384FromBase32 s = Except.error "b32dec failed") := by
  constructor
  · intro v hv
    simp [sha384FromBase32, hv]
  · intro hn
    simp [sha384FromBase32, hn]

/-- Counterexample to C9 as stated: the two-character digest string "AA"
decodes to a single byte — length 1, not 48 — yet deserialization accepts
it instead of failing. -/
theorem c9_counterexample :
    sha384FromBase32 "AA" = Except.ok [0] ∧ ([0] : List Nat).length ≠ 48 :=
  ⟨by rfl, by decide⟩

/-- Witness for C9: a wrong-length digest string is accepted and an invalid
base-32 string is rejected with the decode error. -/
theorem c9_no_length_check_witness :
    sha384FromBase32 "AA" = Except.ok [0]
    ∧ sha384FromBase32 "!" = Except.error "b32dec failed" :=
  ⟨(c9_no_length_check "AA").1 [0] (by decide),
   (c9_no_length_check "!").2 (by decide)⟩

/-- Claim C10: `Sha384::to_base32` is total only for 48-byte digests — for a
`Sha384` whose inner vector was obtained by deserializing a digest string of
a different decoded length, `to_base32` panics (the `copy_from_slice` length
mismatch, modelled as `none`) instead of returning a string or an error. -/
theorem c10_to_base32_panics (s : String) (v : List Nat)
    (hs : sha384FromBase32 s = Except.ok v) (h : v.length ≠ 48) :
    sha384ToBase32 v = none := by
  simp [sha384ToBase32, copy48, h]

/-- Witness for C10: the one-byte digest deserialized from "AA" makes
`to_base32` panic. -/
theorem c10_to_base32_panics_witness : sha384ToBase32 [0] = none :=
  c10_to_base32_panics "AA" [0] (by rfl) (by decide)

/-- Claim C5: a successful `write_object(bytes)` returns the SHA-384 digest
of the bytes, and a subsequent `open_object` on that digest reads back
exactly the bytes. -/
theorem c5_write_open_roundtrip (hash : List Nat → List Nat) (s : StoreState)
    (b : List Nat) (h : (hash b).length = 48) :
    ∃ s2, writeObject hash s b = some (hash b, s2)
      ∧ openObject s2 (hash b) = some b := by
  refine ⟨{ s with objects := setFile s.objects (b32enc (hash b)) b }, ?_, ?_⟩
  · simp [writeObject, copy48, h]
  · simp [openObject, setFile]

/-- Witness for C5: the round-trip at a concrete store, content and hash. -/
theorem c5_write_open_roundtrip_witness :
    ∃ s2, writeObject zeroHash emptyStore [1, 2] = some (zeroHash [1, 2], s2)
      ∧ openObject s2 (zeroHash [1, 2]) = some [1, 2] :=
  c5_write_open_roundtrip zeroHash emptyStore [1, 2] (by decide)

/-- Claim C6: `write_object` is idempotent — writing the same bytes twice
succeeds both times (the staged `rename` replaces the already-present
destination, so the second call is observably a no-op), returns the same
digest both times, and leaves the single object at that digest holding the
bytes. -/
theorem c6_write_object_idempotent (hash : List Nat → List Nat) (s : StoreState)
    (b : List Nat) (h : (hash b).length = 48) :
    ∃ s1 s2, writeObject hash s b = some (hash b, s1)
      ∧ writeObject hash s1 b = some (hash b, s2)
      ∧ s2.objects (b32enc (hash b)) = some b
      ∧ ∀ p, s2.objects p = s1.objects p := by
  refine ⟨{ s with objects := setFile s.objects (b32enc (hash b)) b },
    { s with objects :=
        setFile (setFile s.objects (b32enc (hash b)) b) (b32enc (hash b)) b },
    ?_, ?_, ?_, ?_⟩
  · simp [writeObject, copy48, h]
  · simp [writeObject, copy48, h]
  · simp [setFile]
  · intro p
    by_cases hp : p = b32enc (hash b) <;> simp [setFile, hp]

/-- Witness for C6: idempotent double write at a concrete store and hash. -/
theorem c6_write_object_idempotent_witness :
    ∃ s1 s2, writeObject zeroHash emptyStore [7] = some (zeroHash [7], s1)
      ∧ writeObject zeroHash s1 [7] = some (zeroHash [7], s2)
      ∧ s2.objects (b32enc (zeroHash [7])) = some [7]
      ∧ ∀ p, s2.objects p = s1.objects p :=
  c6_write_object_idempotent zeroHash emptyStore [7] (by decide)

/-- Claim C7: a successful `write_tail(project, branch, block)` stores the
400-byte block under `block/<base32 sig>` where `sig` is the first 64 bytes,
returns `sig`, and creates the symbolic reference `tail/<project>/<branch>`
whose target is the relative path `../../block/<base32 sig>`. -/
theorem c7_write_tail_creates_reference (s : StoreState) (project branch : String)
    (block : List Nat) (h400 : block.length = 400)
    (ht : s.tails project branch = none) :
    ∃ s2, writeTail s project branch block = Except.ok (block.take 64, s2)
      ∧ s2.blocks (b32enc (block.take 64)) = some block
      ∧ s2.tails project branch =
          some (pathJoin "../.." (pathJoin "block" (b32enc (block.take 64)))) := by
  refine ⟨{ s with
      blocks := setFile s.blocks (b32enc (block.take 64)) block
      tails := setTail s.tails project branch (tailToBlock (block.take 64)) },
    ?_, ?_, ?_⟩
  · simp [writeTail, writeBlock, ht]
  · simp [setFile]
  · simp [setTail, tailToBlock, blockRelpath]

/-- Witness for C7: writing a concrete tail into an empty store. -/
theorem c7_write_tail_creates_reference_witness :
    ∃ s2, writeTail emptyStore "proj" "main" blk400 =
        Except.ok (blk400.take 64, s2)
      ∧ s2.blocks (b32enc (blk400.take 64)) = some blk400
      ∧ s2.tails "proj" "main" =
          some (pathJoin "../.." (pathJoin "block" (b32enc (blk400.take 64)))) :=
  c7_write_tail_creates_reference emptyStore "proj" "main" blk400 (by decide) rfl

/-- Claim C8 (amended): tail and manifest references are not replaceable —
when the reference already exists, a second `write_tail` to the same project
and branch fails with the symlink already-exists error instead of replacing
the reference, and a second `write_manifest` likewise fails instead of
updating the `manifest.json` reference. -/
theorem c8_references_not_replaced (hash : List Nat → List Nat) (s : StoreState)
    (project branch : String) (block obj : List Nat)
    (ht : (s.tails project branch).isSome = true)
    (hm : s.manifest.isSome = true)
    (h48 : (hash obj).length = 48) :
    exceptOk (writeTail s project branch block) = false
    ∧ (writeManifest hash s obj).map exceptOk = some false := by
  constructor
  · obtain ⟨t, htt⟩ := Option.isSome_iff_exists.mp ht
    simp [writeTail, writeBlock, htt, exceptOk]
  · obtain ⟨mt, hmt⟩ := Option.isSome_iff_exists.mp hm
    simp [writeManifest, writeObject, copy48, h48, hmt, exceptOk]

/-- Witness for C8 (amended): on a store whose references exist, both second
writes fail. -/
theorem c8_references_not_replaced_witness :
    exceptOk (writeTail occupiedStore "proj" "main" blk400) = false
    ∧ (writeManifest zeroHash occupiedStore [1]).map exceptOk = some false :=
  c8_references_not_replaced zeroHash occupiedStore "proj" "main" blk400 [1]
    (by decide) rfl (by decide)

/-- Counterexample to C8 as stated: starting from an empty store, the first
`write_tail` and `write_manifest` succeed, but repeating each of them fails
with the already-exists error instead of succeeding and replacing the
reference. -/
theorem c8_counterexample :
    exceptOk (writeTail emptyStore "proj" "main" blk400) = true
    ∧ exceptOk secondTail = false
    ∧ (writeManifest zeroHash emptyStore [1]).map exceptOk = some true
    ∧ secondManifest.map exceptOk = some false := by decide

end Buildchain
